import Mathlib

/-!
Shallow embedding of the VVD campaign analytics pipeline
(`vvd_campaign_pipeline.py`), a Spark dataframe program.

Modelling conventions, matching Spark SQL semantics (default, non-ANSI):
* A dataframe is a `List` of records; a partition/group is the sublist of
  rows sharing the key, in batch order.
* `DateType` values are day numbers (`Int`); `datediff a b = a - b` and
  adding an integer `n` to a date adds `n` days (Spark `date_add`
  semantics, which is also how integer `rangeBetween` bounds on a
  `DateType` ORDER BY column are interpreted: as *days*).
* Nullable columns are `Option`; SQL `=` does not match NULLs, so join
  keys require both sides present.  `count(col)` counts non-NULL values,
  `sum`/`avg` ignore NULLs and are NULL on empty input, and `x / 0` is
  NULL (hence all rate fields are `Option ℚ`).
* `Window.partitionBy(c).orderBy(d)` sorts each partition by `d`; ties
  keep the partition's incoming order (a stable sort).  A range frame
  `[v + lo, v + hi]` of the current row's order value `v` selects all
  partition rows whose order value lies in that closed interval.

The two standard-deviation output columns (`revenue_stddev`,
`revenue_std`) are the only source columns not carried by the embedding:
no claim mentions them and square roots have no exact rational value.
-/

namespace VVD

/-- One row of `vvd_campaign_deployments.csv` under `campaign_schema`
(all fields nullable in the schema; the embedding keeps `Option` exactly
for the fields whose nullability the pipeline can observe: the
`count`ed / joined `TACTIC_ID` and the two event dates). -/
structure DeploymentRecord where
  TACTIC_ID : Option String
  CLIENT_ID : String
  CAMPAIGN_ID : String
  CAMPAIGN_NAME : String
  DEPLOYMENT_DATE : Int
  CHANNEL : String
  CREATIVE_ID : String
  SEGMENT : String
  OFFER_TYPE : String
  RESPONSE_FLAG : Int
  RESPONSE_DATE : Option Int
  CONVERSION_FLAG : Int
  CONVERSION_DATE : Option Int
  REVENUE : ℚ
deriving DecidableEq, Repr, Inhabited

/-- `df_deployments`: the loaded batch filtered to
`DEPLOYMENT_DATE.between(analysis_start_date, analysis_end_date)` where
`analysis_end_date = current_date()` (parameter `today`) and
`analysis_start_date = date_sub(analysis_end_date, 548)`. -/
def df_deployments (today : Int) (batch : List DeploymentRecord) : List DeploymentRecord :=
  batch.filter fun r =>
    decide (today - 548 ≤ r.DEPLOYMENT_DATE) && decide (r.DEPLOYMENT_DATE ≤ today)

/-- The distinct client ids of a dataframe (the partition keys of
`Window.partitionBy("CLIENT_ID")`). -/
def clientIds (df : List DeploymentRecord) : List String :=
  (df.map (·.CLIENT_ID)).dedup

/-- The partition of rows belonging to one client. -/
def clientPartition (df : List DeploymentRecord) (c : String) : List DeploymentRecord :=
  df.filter fun r => decide (r.CLIENT_ID = c)

/-- `orderBy("DEPLOYMENT_DATE")` inside a client partition: a stable sort
on the date. -/
def sortByDate (rows : List DeploymentRecord) : List DeploymentRecord :=
  rows.insertionSort fun a b => a.DEPLOYMENT_DATE ≤ b.DEPLOYMENT_DATE

/-- `count("TACTIC_ID")` over the partition rows whose order value
(`DEPLOYMENT_DATE`) lies in the closed range frame `[lo, hi]`:
counts only rows with a non-NULL `TACTIC_ID`. -/
def winCount (rows : List DeploymentRecord) (lo hi : Int) : Nat :=
  rows.countP fun x =>
    x.TACTIC_ID.isSome && decide (lo ≤ x.DEPLOYMENT_DATE) && decide (x.DEPLOYMENT_DATE ≤ hi)

/-- One output row of `df_contact_frequency`: the original columns plus
the five window columns. -/
structure ContactFrequencyRecord where
  row : DeploymentRecord
  days_since_last_contact : Option Int
  contact_number : Nat
  contacts_last_30d : Int
  contacts_last_60d : Int
  contacts_last_90d : Int
deriving DecidableEq, Repr

/-- The window columns for the row at (0-based) position `p.1` of the
sorted partition `s`:
* `days_since_last_contact = datediff(DEPLOYMENT_DATE, lag(DEPLOYMENT_DATE, 1) over window_client)`,
* `contact_number = row_number() over window_client`,
* `contacts_last_Nd = count("TACTIC_ID") over window_client_Nd - 1` where
  `window_client_Nd` has `rangeBetween(-N*86400, 0)` over the `DateType`
  order column, i.e. a frame of `[v - N*86400 days, v]`. -/
def mkCF (s : List DeploymentRecord) (p : Nat × DeploymentRecord) : ContactFrequencyRecord :=
  let r := p.2
  { row := r
    days_since_last_contact :=
      if p.1 = 0 then none
      else (s[p.1 - 1]?).map fun q => r.DEPLOYMENT_DATE - q.DEPLOYMENT_DATE
    contact_number := p.1 + 1
    contacts_last_30d := (winCount s (r.DEPLOYMENT_DATE - 30*86400) r.DEPLOYMENT_DATE : Int) - 1
    contacts_last_60d := (winCount s (r.DEPLOYMENT_DATE - 60*86400) r.DEPLOYMENT_DATE : Int) - 1
    contacts_last_90d := (winCount s (r.DEPLOYMENT_DATE - 90*86400) r.DEPLOYMENT_DATE : Int) - 1 }

/-- All window columns for one client partition. -/
def enrichClient (part : List DeploymentRecord) : List ContactFrequencyRecord :=
  (sortByDate part).enum.map (mkCF (sortByDate part))

/-- `df_contact_frequency`: the deployment rows augmented with the window
columns, client partition by client partition. -/
def df_contact_frequency (df : List DeploymentRecord) : List ContactFrequencyRecord :=
  (clientIds df).flatMap fun c => enrichClient (clientPartition df c)

/-- Spark SQL division (default, non-ANSI mode): NULL on a zero divisor. -/
def divNull (a b : ℚ) : Option ℚ := if b = 0 then none else some (a / b)

/-- Spark `avg` over a non-nullable numeric column: sum over count,
NULL on an empty group. -/
def avgRat (xs : List ℚ) : Option ℚ :=
  if xs.length = 0 then none else some (xs.sum / (xs.length : ℚ))

/-- Spark `avg` of an integer column (result is a double). -/
def avgInt (xs : List Int) : Option ℚ := avgRat (xs.map (Int.cast : Int → ℚ))

/-- The `groupBy("CAMPAIGN_ID", "CAMPAIGN_NAME", "CHANNEL", "OFFER_TYPE")` key. -/
def campaignKey (r : DeploymentRecord) : String × String × String × String :=
  (r.CAMPAIGN_ID, r.CAMPAIGN_NAME, r.CHANNEL, r.OFFER_TYPE)

/-- The rows of one campaign group. -/
def campaignRows (df : List DeploymentRecord) (k : String × String × String × String) :
    List DeploymentRecord :=
  df.filter fun r => decide (campaignKey r = k)

/-- One output row of `df_campaign_performance`. -/
structure CampaignPerformanceAggregate where
  CAMPAIGN_ID : String
  CAMPAIGN_NAME : String
  CHANNEL : String
  OFFER_TYPE : String
  total_deployments : Nat
  unique_clients : Nat
  total_responses : Int
  total_conversions : Int
  total_revenue : ℚ
  avg_revenue_per_deployment : Option ℚ
  response_rate : Option ℚ
  conversion_rate : Option ℚ
  response_to_conversion_rate : Option ℚ
  avg_days_to_response : Option ℚ
  avg_days_to_conversion : Option ℚ
deriving DecidableEq, Repr

/-- The `agg(...)` of section 2 of the pipeline applied to one campaign
group `g`.  `count("TACTIC_ID")` counts non-NULL tactic ids,
`countDistinct("CLIENT_ID")` is the number of distinct client ids, the
rates divide by `count`/`sum` with NULL on a zero denominator, and the
two timing averages aggregate `when(FLAG == 1, datediff(event, deployment))`,
whose non-matching (and NULL-date) rows are NULL and hence ignored by `avg`. -/
def campaignAgg (k : String × String × String × String) (g : List DeploymentRecord) :
    CampaignPerformanceAggregate :=
  let cnt : Nat := g.countP (·.TACTIC_ID.isSome)
  let resp : Int := (g.map (·.RESPONSE_FLAG)).sum
  let conv : Int := (g.map (·.CONVERSION_FLAG)).sum
  { CAMPAIGN_ID := k.1
    CAMPAIGN_NAME := k.2.1
    CHANNEL := k.2.2.1
    OFFER_TYPE := k.2.2.2
    total_deployments := cnt
    unique_clients := (g.map (·.CLIENT_ID)).dedup.length
    total_responses := resp
    total_conversions := conv
    total_revenue := (g.map (·.REVENUE)).sum
    avg_revenue_per_deployment := avgRat (g.map (·.REVENUE))
    response_rate := (divNull (resp : ℚ) (cnt : ℚ)).map (· * 100)
    conversion_rate := (divNull (conv : ℚ) (cnt : ℚ)).map (· * 100)
    response_to_conversion_rate := (divNull (conv : ℚ) (resp : ℚ)).map (· * 100)
    avg_days_to_response := avgRat (g.filterMap fun r =>
      if r.RESPONSE_FLAG = 1 then
        r.RESPONSE_DATE.map fun d => ((d - r.DEPLOYMENT_DATE : Int) : ℚ)
      else none)
    avg_days_to_conversion := avgRat (g.filterMap fun r =>
      if r.CONVERSION_FLAG = 1 then
        r.CONVERSION_DATE.map fun d => ((d - r.DEPLOYMENT_DATE : Int) : ℚ)
      else none) }

/-- `df_campaign_performance`: one aggregate row per campaign group. -/
def df_campaign_performance (df : List DeploymentRecord) : List CampaignPerformanceAggregate :=
  (df.map campaignKey).dedup.map fun k => campaignAgg k (campaignRows df k)

/-- One output row of `df_client_engagement`. -/
structure ClientEngagementProfile where
  CLIENT_ID : String
  total_contacts : Nat
  total_responses : Int
  total_conversions : Int
  total_revenue : ℚ
  last_contact_date : Option Int
  first_contact_date : Option Int
  response_rate : Option ℚ
  conversion_rate : Option ℚ
  days_since_last_contact : Option Int
  customer_lifetime_days : Option Int
  engagement_score : Option ℚ
deriving DecidableEq, Repr

/-- Section 4 of the pipeline for one client group `g`: the plain
aggregates, the two rate divisions `sum(FLAG) / count("TACTIC_ID")`
(NULL, not 0, when the count is zero — the code has no guard), and the
three `withColumn` derivations, where `engagement_score` is NULL as soon
as any of its three summands is (Spark NULL propagation through `+`/`*`). -/
def clientAgg (today : Int) (c : String) (g : List DeploymentRecord) : ClientEngagementProfile :=
  let cnt : Nat := g.countP (·.TACTIC_ID.isSome)
  let resp : Int := (g.map (·.RESPONSE_FLAG)).sum
  let conv : Int := (g.map (·.CONVERSION_FLAG)).sum
  let rev : ℚ := (g.map (·.REVENUE)).sum
  let lastD : Option Int := (g.map (·.DEPLOYMENT_DATE)).max?
  let firstD : Option Int := (g.map (·.DEPLOYMENT_DATE)).min?
  let rr : Option ℚ := divNull (resp : ℚ) (cnt : ℚ)
  let cr : Option ℚ := divNull (conv : ℚ) (cnt : ℚ)
  { CLIENT_ID := c
    total_contacts := cnt
    total_responses := resp
    total_conversions := conv
    total_revenue := rev
    last_contact_date := lastD
    first_contact_date := firstD
    response_rate := rr
    conversion_rate := cr
    days_since_last_contact := lastD.map fun d => today - d
    customer_lifetime_days :=
      match lastD, firstD with
      | some l, some f => some (l - f)
      | _, _ => none
    engagement_score :=
      match rr, cr, divNull rev (cnt : ℚ) with
      | some a, some b, some v => some (a * 0.3 + b * 0.5 + v * 0.2)
      | _, _, _ => none }

/-- `df_client_engagement`: one profile per client. -/
def df_client_engagement (today : Int) (df : List DeploymentRecord) :
    List ClientEngagementProfile :=
  (clientIds df).map fun c => clientAgg today c (clientPartition df c)

/-- One output row of `df_frequency_impact`. -/
structure FrequencyImpactBucket where
  contacts_last_30d : Int
  deployments_count : Nat
  avg_response_rate : Option ℚ
  avg_conversion_rate : Option ℚ
  avg_revenue : Option ℚ
deriving DecidableEq, Repr

/-- Section 3 of the pipeline for one `contacts_last_30d` group of
`df_contact_frequency` rows. -/
def freqAgg (k : Int) (g : List ContactFrequencyRecord) : FrequencyImpactBucket :=
  { contacts_last_30d := k
    deployments_count := g.countP (·.row.TACTIC_ID.isSome)
    avg_response_rate := avgInt (g.map (·.row.RESPONSE_FLAG))
    avg_conversion_rate := avgInt (g.map (·.row.CONVERSION_FLAG))
    avg_revenue := avgRat (g.map (·.row.REVENUE)) }

/-- `df_frequency_impact`: one bucket per `contacts_last_30d` value,
`orderBy("contacts_last_30d")` ascending. -/
def df_frequency_impact (df : List DeploymentRecord) : List FrequencyImpactBucket :=
  let cf := df_contact_frequency df
  (((cf.map (·.contacts_last_30d)).dedup).insertionSort (· ≤ ·)).map fun k =>
    freqAgg k (cf.filter fun x => decide (x.contacts_last_30d = k))

/-- The `df_deployments.select("TACTIC_ID", "CHANNEL", "RESPONSE_FLAG",
"CONVERSION_FLAG", "REVENUE")` projection, the right side of the
optimal-frequency join. -/
structure SourceColumns where
  TACTIC_ID : Option String
  CHANNEL : String
  RESPONSE_FLAG : Int
  CONVERSION_FLAG : Int
  REVENUE : ℚ
deriving DecidableEq, Repr

/-- The projection itself. -/
def selectSource (df : List DeploymentRecord) : List SourceColumns :=
  df.map fun r => ⟨r.TACTIC_ID, r.CHANNEL, r.RESPONSE_FLAG, r.CONVERSION_FLAG, r.REVENUE⟩

/-- SQL equality on the nullable join key: NULL matches nothing. -/
def tacticMatch : Option String → Option String → Bool
  | some a, some b => a == b
  | _, _ => false

/-- The inner (default) equi-join `df_contact_frequency.join(..., on="TACTIC_ID")`:
every pair of rows whose keys are non-NULL and equal; unmatched rows of
either side are dropped. -/
def joinOnTacticId (left : List ContactFrequencyRecord) (right : List SourceColumns) :
    List (ContactFrequencyRecord × SourceColumns) :=
  left.flatMap fun l =>
    (right.filter fun r => tacticMatch l.row.TACTIC_ID r.TACTIC_ID).map fun r => (l, r)

/-- The joined relation feeding section 5 of the pipeline. -/
def optJoined (df : List DeploymentRecord) : List (ContactFrequencyRecord × SourceColumns) :=
  joinOnTacticId (df_contact_frequency df) (selectSource df)

/-- One output row of `df_optimal_frequency`. -/
structure OptimalFrequencyBucket where
  CHANNEL : String
  contacts_last_30d : Int
  sample_size : Nat
  response_rate : Option ℚ
  conversion_rate : Option ℚ
  avg_revenue : Option ℚ
deriving DecidableEq, Repr

/-- The `groupBy("CHANNEL", "contacts_last_30d")` key of the joined
relation. -/
def optKey (p : ContactFrequencyRecord × SourceColumns) : String × Int :=
  (p.2.CHANNEL, p.1.contacts_last_30d)

/-- The rows of one (channel, frequency) group of the joined relation. -/
def optGroup (j : List (ContactFrequencyRecord × SourceColumns)) (k : String × Int) :
    List (ContactFrequencyRecord × SourceColumns) :=
  j.filter fun p => decide (optKey p = k)

/-- Section 5's `agg(...)` for one (channel, frequency) group. -/
def optAgg (k : String × Int) (g : List (ContactFrequencyRecord × SourceColumns)) :
    OptimalFrequencyBucket :=
  { CHANNEL := k.1
    contacts_last_30d := k.2
    sample_size := g.countP fun p => p.1.row.TACTIC_ID.isSome
    response_rate := avgInt (g.map (·.2.RESPONSE_FLAG))
    conversion_rate := avgInt (g.map (·.2.CONVERSION_FLAG))
    avg_revenue := avgRat (g.map (·.2.REVENUE)) }

/-- `df_optimal_frequency`: the joined relation grouped by
(channel, `contacts_last_30d`) and then `.filter(col("sample_size") >= 100)`. -/
def df_optimal_frequency (df : List DeploymentRecord) : List OptimalFrequencyBucket :=
  let j := optJoined df
  ((j.map optKey).dedup.map fun k => optAgg k (optGroup j k)).filter fun b =>
    decide (100 ≤ b.sample_size)

/-- `date_format(d, "yyyy-MM")` on a day number: the (proleptic
Gregorian) civil year and month containing day `z` of the epoch, by the
standard days-to-civil conversion. -/
def yearMonthOf (z : Int) : Int × Int :=
  let z' := z + 719468
  let era := (if 0 ≤ z' then z' else z' - 146096) / 146097
  let doe := z' - era * 146097
  let yoe := (doe - doe / 1460 + doe / 36524 - doe / 146096) / 365
  let doy := doe - (365 * yoe + yoe / 4 - yoe / 100)
  let mp := (5 * doy + 2) / 153
  let m := if mp < 10 then mp + 3 else mp - 9
  (yoe + era * 400 + (if m ≤ 2 then 1 else 0), m)

/-- One output row of `df_monthly_trends`. -/
structure MonthlyTrend where
  year_month : Int × Int
  CHANNEL : String
  deployments : Nat
  unique_clients : Nat
  response_rate : Option ℚ
  conversion_rate : Option ℚ
  total_revenue : ℚ
deriving DecidableEq, Repr

/-- The `groupBy("year_month", "CHANNEL")` key. -/
def monthKey (r : DeploymentRecord) : (Int × Int) × String :=
  (yearMonthOf r.DEPLOYMENT_DATE, r.CHANNEL)

/-- Ascending order on (year_month, channel), matching the lexicographic
order of the zero-padded "yyyy-MM" strings for CE dates. -/
def monthKeyLe (a b : (Int × Int) × String) : Bool :=
  decide (a.1.1 < b.1.1) ||
    (a.1.1 == b.1.1 &&
      (decide (a.1.2 < b.1.2) || (a.1.2 == b.1.2 && !(decide (b.2 < a.2)))))

/-- Section 6's `agg(...)` for one (year_month, channel) group. -/
def monthAgg (k : (Int × Int) × String) (g : List DeploymentRecord) : MonthlyTrend :=
  { year_month := k.1
    CHANNEL := k.2
    deployments := g.countP (·.TACTIC_ID.isSome)
    unique_clients := (g.map (·.CLIENT_ID)).dedup.length
    response_rate := avgInt (g.map (·.RESPONSE_FLAG))
    conversion_rate := avgInt (g.map (·.CONVERSION_FLAG))
    total_revenue := (g.map (·.REVENUE)).sum }

/-- `df_monthly_trends`: one row per (year_month, channel), ordered by
`orderBy("year_month", "CHANNEL")`. -/
def df_monthly_trends (df : List DeploymentRecord) : List MonthlyTrend :=
  ((df.map monthKey).dedup.insertionSort fun a b => monthKeyLe a b = true).map fun k =>
    monthAgg k (df.filter fun r => decide (monthKey r = k))

/-- The campaign aggregate row the pipeline produces for key `k`. -/
def campaignAggOf (today : Int) (batch : List DeploymentRecord)
    (k : String × String × String × String) : CampaignPerformanceAggregate :=
  campaignAgg k (campaignRows (df_deployments today batch) k)

/-- The engagement profile the pipeline produces for client `c` of
dataframe `df`. -/
def clientAggOf (today : Int) (df : List DeploymentRecord) (c : String) :
    ClientEngagementProfile :=
  clientAgg today c (clientPartition df c)

/-- The ordinal (`contact_number`) the window engine assigns to tactic
`t` in dataframe `df`. -/
def contactNumberOf (df : List DeploymentRecord) (t : String) : Option Nat :=
  ((df_contact_frequency df).find? fun cf => cf.row.TACTIC_ID == some t).map
    (·.contact_number)

/-- Test fixture: one deployment record with the given tactic id, client,
day number and response flag (responses get a response date two days
later; no conversions, zero revenue). -/
def sampleRec (t : Option String) (c : String) (d : Int) (rf : Int) : DeploymentRecord :=
  { TACTIC_ID := t
    CLIENT_ID := c
    CAMPAIGN_ID := "CAMP"
    CAMPAIGN_NAME := "Spring"
    DEPLOYMENT_DATE := d
    CHANNEL := "EMAIL"
    CREATIVE_ID := "CR1"
    SEGMENT := "SEG"
    OFFER_TYPE := "DISC"
    RESPONSE_FLAG := rf
    RESPONSE_DATE := if rf = 1 then some (d + 2) else none
    CONVERSION_FLAG := 0
    CONVERSION_DATE := none
    REVENUE := 0 }

/-- The spec's walkthrough scenario: client "C1" contacted on days 1, 5
and 40 with RESPONSE_FLAG [0, 1, 0]. -/
def scenarioBatch : List DeploymentRecord :=
  [sampleRec (some "T1") "C1" 1 0, sampleRec (some "T2") "C1" 5 1,
   sampleRec (some "T3") "C1" 40 0]

/-- The (single) campaign key of `scenarioBatch`. -/
def kCAMP : String × String × String × String := ("CAMP", "Spring", "EMAIL", "DISC")

/-- Two same-day contacts of one client (a deployment-date tie). -/
def tieA : DeploymentRecord := sampleRec (some "A") "C1" 10 0

/-- Second record of the tie; `tieB.TACTIC_ID > tieA.TACTIC_ID`. -/
def tieB : DeploymentRecord := sampleRec (some "B") "C1" 10 0

/-- A record with a NULL tactic id (the schema declares the column
nullable). -/
def nullTacticRec : DeploymentRecord := sampleRec none "C9" 10 0

/-- The window row the engine emits for the scenario's day-1 contact. -/
def cfT1 : ContactFrequencyRecord := ⟨sampleRec (some "T1") "C1" 1 0, none, 1, 0, 0, 0⟩

/-- The window row the engine emits for the scenario's day-40 contact. -/
def cfT3 : ContactFrequencyRecord := ⟨sampleRec (some "T3") "C1" 40 0, some 35, 3, 2, 2, 2⟩

/-- The timing average as the spec words it: the mean of
`response_date - deployment_date` over the group's records with
`response_flag` true (the data-model invariant guarantees the date is
present on such records), NULL when no qualifying record exists. -/
def avg_days_to_response_spec (g : List DeploymentRecord) : Option ℚ :=
  avgRat ((g.filter fun r => decide (r.RESPONSE_FLAG = 1)).map fun r =>
    ((r.RESPONSE_DATE.getD 0 - r.DEPLOYMENT_DATE : Int) : ℚ))

/-- The analogous spec-worded conversion timing average. -/
def avg_days_to_conversion_spec (g : List DeploymentRecord) : Option ℚ :=
  avgRat ((g.filter fun r => decide (r.CONVERSION_FLAG = 1)).map fun r =>
    ((r.CONVERSION_DATE.getD 0 - r.DEPLOYMENT_DATE : Int) : ℚ))

/-- The monthly-trend row of `scenarioBatch` for January 1970. -/
def wMT : MonthlyTrend := ⟨(1970, 1), "EMAIL", 2, 1, some (1/2), some 0, 0⟩

/-- The frequency-impact bucket of `scenarioBatch` at frequency 0. -/
def wFB : FrequencyImpactBucket := ⟨0, 1, some 0, some 0, some 0⟩

/-- The campaign aggregate row of `scenarioBatch`. -/
def wCA : CampaignPerformanceAggregate :=
  ⟨"CAMP", "Spring", "EMAIL", "DISC", 3, 1, 1, 0, 0, some 0, some (100/3), some 0,
   some 0, some 2, none⟩

instance : IsTotal DeploymentRecord fun a b => a.DEPLOYMENT_DATE ≤ b.DEPLOYMENT_DATE :=
  ⟨fun a b => le_total a.DEPLOYMENT_DATE b.DEPLOYMENT_DATE⟩

instance : IsTrans DeploymentRecord fun a b => a.DEPLOYMENT_DATE ≤ b.DEPLOYMENT_DATE :=
  ⟨fun _ _ _ h1 h2 => le_trans h1 h2⟩

section Lemmas

/-- Membership in the date-filtered batch. -/
theorem mem_df_deployments {today : Int} {batch : List DeploymentRecord}
    {x : DeploymentRecord} :
    x ∈ df_deployments today batch ↔
      x ∈ batch ∧ today - 548 ≤ x.DEPLOYMENT_DATE ∧ x.DEPLOYMENT_DATE ≤ today := by
  simp [df_deployments, List.mem_filter, and_assoc]

/-- Membership in a client partition. -/
theorem mem_clientPartition {df : List DeploymentRecord} {c : String}
    {x : DeploymentRecord} :
    x ∈ clientPartition df c ↔ x ∈ df ∧ x.CLIENT_ID = c := by
  simp [clientPartition, List.mem_filter]

/-- Sorting a partition permutes it. -/
theorem sortByDate_perm (rows : List DeploymentRecord) : List.Perm (sortByDate rows) rows :=
  List.perm_insertionSort _ rows

/-- The original columns of the window output are the sorted partition. -/
theorem map_row_enrichClient (part : List DeploymentRecord) :
    (enrichClient part).map (·.row) = sortByDate part := by
  unfold enrichClient
  rw [List.map_map]
  exact List.enum_map_snd (sortByDate part)

/-- Every window output row is built by `mkCF` from an enumerated
position of the sorted partition. -/
theorem exists_of_mem_enrichClient {part : List DeploymentRecord}
    {cf : ContactFrequencyRecord} (h : cf ∈ enrichClient part) :
    ∃ p ∈ (sortByDate part).enum, cf = mkCF (sortByDate part) p := by
  unfold enrichClient at h
  simpa [List.mem_map, eq_comm] using h

/-- The original columns of a window output row are a row of the
partition. -/
theorem row_mem_of_mem_enrichClient {part : List DeploymentRecord}
    {cf : ContactFrequencyRecord} (h : cf ∈ enrichClient part) : cf.row ∈ part := by
  obtain ⟨p, hp, rfl⟩ := exists_of_mem_enrichClient h
  have h2 : p.2 ∈ sortByDate part := List.snd_mem_of_mem_enumFrom hp
  exact (sortByDate_perm part).mem_iff.1 h2

/-- A `df_contact_frequency` row comes from its own client's partition. -/
theorem mem_enrichClient_of_mem_df_contact_frequency {df : List DeploymentRecord}
    {cf : ContactFrequencyRecord} (h : cf ∈ df_contact_frequency df) :
    cf ∈ enrichClient (clientPartition df cf.row.CLIENT_ID) := by
  unfold df_contact_frequency at h
  rw [List.mem_flatMap] at h
  obtain ⟨c, _, hcf⟩ := h
  have hrow := row_mem_of_mem_enrichClient hcf
  rwa [(mem_clientPartition.1 hrow).2]

/-- The original columns of a `df_contact_frequency` row are a dataframe
row. -/
theorem row_mem_of_mem_df_contact_frequency {df : List DeploymentRecord}
    {cf : ContactFrequencyRecord} (h : cf ∈ df_contact_frequency df) : cf.row ∈ df :=
  (mem_clientPartition.1
    (row_mem_of_mem_enrichClient (mem_enrichClient_of_mem_df_contact_frequency h))).1

/-- A window count is invariant under permuting the counted rows. -/
theorem winCount_perm {rows rows' : List DeploymentRecord} (h : List.Perm rows rows')
    (lo hi : Int) : winCount rows lo hi = winCount rows' lo hi :=
  h.countP_eq _

/-- A row inside its own frame makes the window count positive. -/
theorem winCount_pos {rows : List DeploymentRecord} {x : DeploymentRecord}
    (hx : x ∈ rows) (hs : x.TACTIC_ID.isSome = true) (lo hi : Int)
    (h1 : lo ≤ x.DEPLOYMENT_DATE) (h2 : x.DEPLOYMENT_DATE ≤ hi) :
    1 ≤ winCount rows lo hi := by
  have : 0 < winCount rows lo hi := by
    unfold winCount
    exact List.countP_pos_iff.2 ⟨x, hx, by simp [hs, h1, h2]⟩
  omega

/-- Widening the frame can only grow the window count. -/
theorem winCount_mono (rows : List DeploymentRecord) (lo lo' hi : Int)
    (h : lo' ≤ lo) : winCount rows lo hi ≤ winCount rows lo' hi := by
  unfold winCount
  refine List.countP_mono_left fun x _ hx => ?_
  simp only [Bool.and_eq_true, decide_eq_true_eq] at hx ⊢
  exact ⟨⟨hx.1.1, le_trans h hx.1.2⟩, hx.2⟩

/-- Inside a 548-day-filtered batch, any frame reaching back at least 548
days covers the whole client history up to the current date. -/
theorem winCount_eq_countP_le (today : Int) {batch : List DeploymentRecord}
    (h : ∀ r ∈ batch, r.TACTIC_ID.isSome = true) (c : String) {v : Int} (N : Int)
    (hv1 : today - 548 ≤ v) (hv2 : v ≤ today) (hN : 548 ≤ N) :
    winCount (clientPartition (df_deployments today batch) c) (v - N) v =
      (clientPartition (df_deployments today batch) c).countP
        fun x => decide (x.DEPLOYMENT_DATE ≤ v) := by
  unfold winCount
  refine List.countP_congr fun x hx => ?_
  obtain ⟨hxdf, -⟩ := mem_clientPartition.1 hx
  obtain ⟨hxb, hlo, hhi⟩ := mem_df_deployments.1 hxdf
  have hsome := h x hxb
  simp only [Bool.and_eq_true, decide_eq_true_eq, hsome, true_and]
  constructor
  · exact fun hc => hc.2
  · exact fun hc => ⟨by omega, hc⟩

/-- Field equation of the window builder: the original columns. -/
theorem mkCF_row (s : List DeploymentRecord) (p : Nat × DeploymentRecord) :
    (mkCF s p).row = p.2 := rfl

/-- Field equation of the window builder: the ordinal. -/
theorem mkCF_contact_number (s : List DeploymentRecord) (p : Nat × DeploymentRecord) :
    (mkCF s p).contact_number = p.1 + 1 := rfl

/-- Field equation of the window builder: the 30-day-named count. -/
theorem mkCF_c30 (s : List DeploymentRecord) (p : Nat × DeploymentRecord) :
    (mkCF s p).contacts_last_30d =
      (winCount s (p.2.DEPLOYMENT_DATE - 30*86400) p.2.DEPLOYMENT_DATE : Int) - 1 := rfl

/-- Field equation of the window builder: the 60-day-named count. -/
theorem mkCF_c60 (s : List DeploymentRecord) (p : Nat × DeploymentRecord) :
    (mkCF s p).contacts_last_60d =
      (winCount s (p.2.DEPLOYMENT_DATE - 60*86400) p.2.DEPLOYMENT_DATE : Int) - 1 := rfl

/-- Field equation of the window builder: the 90-day-named count. -/
theorem mkCF_c90 (s : List DeploymentRecord) (p : Nat × DeploymentRecord) :
    (mkCF s p).contacts_last_90d =
      (winCount s (p.2.DEPLOYMENT_DATE - 90*86400) p.2.DEPLOYMENT_DATE : Int) - 1 := rfl

/-- Every window output row lives in some client's enriched partition. -/
theorem exists_client_of_mem_df_contact_frequency {df : List DeploymentRecord}
    {cf : ContactFrequencyRecord} (h : cf ∈ df_contact_frequency df) :
    ∃ c, cf ∈ enrichClient (clientPartition df c) := by
  unfold df_contact_frequency at h
  rw [List.mem_flatMap] at h
  obtain ⟨c, -, hcf⟩ := h
  exact ⟨c, hcf⟩

end Lemmas

/-- C1: evaluation of the code on the spec's own scenario (client "C1",
contacts on days 1, 5, 40): the day-40 record gets
`days_since_last_contact = 35` and `contact_number = 3` as the spec says,
but `contacts_last_30d = 2`, not the specified 0 — the
`rangeBetween(-30*86400, 0)` frame over the `DateType` order column
reaches back 2,592,000 *days*, so the day-1 and day-5 contacts are
counted (`contacts_last_90d = 2` as specified). -/
theorem scenario_day40_window_counts_as_coded :
    ((df_contact_frequency (df_deployments 548 scenarioBatch)).find? fun cf =>
        cf.row.TACTIC_ID == some "T3").map
      (fun cf => (cf.days_since_last_contact, cf.contact_number,
        cf.contacts_last_30d, cf.contacts_last_90d)) =
      some (some 35, 3, 2, 2) := by decide

/-- C2, counterexample: the code's window orders only by
`DEPLOYMENT_DATE`, with no `TACTIC_ID` tie-break.  Two permutations of
the same two-record batch (one client, both contacts on day 10) assign
tactic "A" ordinal 1 in one order and 2 in the other, and in the second
order tactic "B" (the larger id) receives ordinal 1 — so ordinal
assignment is neither tactic-id tie-broken nor determined by the batch
as a multiset. -/
theorem ordinal_assignment_depends_on_row_order :
    List.Perm [tieA, tieB] [tieB, tieA] ∧
    contactNumberOf (df_deployments 548 [tieA, tieB]) "A" = some 1 ∧
    contactNumberOf (df_deployments 548 [tieB, tieA]) "A" = some 2 ∧
    contactNumberOf (df_deployments 548 [tieB, tieA]) "B" = some 1 :=
  ⟨List.Perm.swap tieB tieA [], by decide, by decide, by decide⟩

/-- C2, amended: within each client partition the emitted records are
ordered by `deployment_date` ascending (ties in the partition's incoming
row order, not by tactic id), and `contact_number` runs contiguously
1..N over the partition with no gaps or repeats. -/
theorem window_partition_sorted_and_ordinals_contiguous (df : List DeploymentRecord)
    (c : String) :
    ((enrichClient (clientPartition df c)).map fun x => x.row.DEPLOYMENT_DATE).Sorted
      (· ≤ ·) ∧
    (enrichClient (clientPartition df c)).map (·.contact_number) =
      List.range' 1 (clientPartition df c).length := by
  constructor
  · have h1 : ((enrichClient (clientPartition df c)).map fun x => x.row.DEPLOYMENT_DATE)
        = (sortByDate (clientPartition df c)).map (·.DEPLOYMENT_DATE) := by
      rw [← map_row_enrichClient (clientPartition df c), List.map_map]
      rfl
    rw [h1]
    have h2 : List.Sorted (fun a b => a.DEPLOYMENT_DATE ≤ b.DEPLOYMENT_DATE)
        (sortByDate (clientPartition df c)) := List.sorted_insertionSort _ _
    exact List.Pairwise.map _ (fun _ _ hab => hab) h2
  · unfold enrichClient
    rw [List.map_map]
    have h3 : (ContactFrequencyRecord.contact_number ∘
        mkCF (sortByDate (clientPartition df c))) = (fun i => i + 1) ∘ Prod.fst := rfl
    have h4 : (sortByDate (clientPartition df c)).length = (clientPartition df c).length :=
      List.length_insertionSort _ _
    rw [h3, ← List.map_map, List.enum_map_fst, h4, List.range'_eq_map_range]
    exact List.map_congr_left fun a _ => Nat.add_comm a 1

/-- C6: with tactic ids present (the data model declares them unique
identifiers), every emitted record has
`0 ≤ contacts_last_30d ≤ contacts_last_60d ≤ contacts_last_90d`. -/
theorem window_counts_monotone_nonneg (today : Int) (batch : List DeploymentRecord)
    (h : ∀ r ∈ batch, r.TACTIC_ID.isSome = true) :
    ∀ cf ∈ df_contact_frequency (df_deployments today batch),
      0 ≤ cf.contacts_last_30d ∧ cf.contacts_last_30d ≤ cf.contacts_last_60d ∧
        cf.contacts_last_60d ≤ cf.contacts_last_90d := by
  intro cf hcf
  obtain ⟨c, hcf2⟩ := exists_client_of_mem_df_contact_frequency hcf
  obtain ⟨p, hp, rfl⟩ := exists_of_mem_enrichClient hcf2
  have hrs : p.2 ∈ sortByDate (clientPartition (df_deployments today batch) c) :=
    List.snd_mem_of_mem_enumFrom hp
  have hrpart := (sortByDate_perm _).mem_iff.1 hrs
  have hrb : p.2 ∈ batch := (mem_df_deployments.1 (mem_clientPartition.1 hrpart).1).1
  have hsome := h p.2 hrb
  simp only [mkCF_c30, mkCF_c60, mkCF_c90]
  have w30 := winCount_pos hrs hsome (p.2.DEPLOYMENT_DATE - 30*86400)
    p.2.DEPLOYMENT_DATE (by omega) (by omega)
  have m1 := winCount_mono (sortByDate (clientPartition (df_deployments today batch) c))
    (p.2.DEPLOYMENT_DATE - 30*86400) (p.2.DEPLOYMENT_DATE - 60*86400)
    p.2.DEPLOYMENT_DATE (by omega)
  have m2 := winCount_mono (sortByDate (clientPartition (df_deployments today batch) c))
    (p.2.DEPLOYMENT_DATE - 60*86400) (p.2.DEPLOYMENT_DATE - 90*86400)
    p.2.DEPLOYMENT_DATE (by omega)
  omega

/-- Witness for C6 at the scenario's day-1 record. -/
theorem window_counts_monotone_nonneg_witness :
    cfT1 ∈ df_contact_frequency (df_deployments 548 scenarioBatch) ∧
      (0 ≤ cfT1.contacts_last_30d ∧ cfT1.contacts_last_30d ≤ cfT1.contacts_last_60d ∧
        cfT1.contacts_last_60d ≤ cfT1.contacts_last_90d) :=
  ⟨by decide, window_counts_monotone_nonneg 548 scenarioBatch (by decide) cfT1 (by decide)⟩

/-- C9: as coded, the three rolling counts coincide on every emitted
record of a 548-day-filtered batch (with tactic ids present): each
equals the number of same-client records dated on or before the current
record, minus one — the `-N*86400` range-frame bounds are day offsets
far exceeding the batch's 548-day span. -/
theorem window_counts_coincide (today : Int) (batch : List DeploymentRecord)
    (h : ∀ r ∈ batch, r.TACTIC_ID.isSome = true) :
    ∀ cf ∈ df_contact_frequency (df_deployments today batch),
      cf.contacts_last_30d = cf.contacts_last_60d ∧
      cf.contacts_last_60d = cf.contacts_last_90d ∧
      cf.contacts_last_30d =
        ((clientPartition (df_deployments today batch) cf.row.CLIENT_ID).countP
          fun x => decide (x.DEPLOYMENT_DATE ≤ cf.row.DEPLOYMENT_DATE) : Int) - 1 := by
  intro cf hcf
  obtain ⟨c, hcf2⟩ := exists_client_of_mem_df_contact_frequency hcf
  obtain ⟨p, hp, rfl⟩ := exists_of_mem_enrichClient hcf2
  have hrs : p.2 ∈ sortByDate (clientPartition (df_deployments today batch) c) :=
    List.snd_mem_of_mem_enumFrom hp
  have hrpart := (sortByDate_perm _).mem_iff.1 hrs
  have hcid : p.2.CLIENT_ID = c := (mem_clientPartition.1 hrpart).2
  have hvb := mem_df_deployments.1 (mem_clientPartition.1 hrpart).1
  have e : ∀ N : Int, 548 ≤ N →
      winCount (sortByDate (clientPartition (df_deployments today batch) c))
        (p.2.DEPLOYMENT_DATE - N) p.2.DEPLOYMENT_DATE =
      (clientPartition (df_deployments today batch) c).countP
        fun x => decide (x.DEPLOYMENT_DATE ≤ p.2.DEPLOYMENT_DATE) := by
    intro N hN
    rw [winCount_perm (sortByDate_perm _)]
    exact winCount_eq_countP_le today h c N hvb.2.1 hvb.2.2 hN
  simp only [mkCF_c30, mkCF_c60, mkCF_c90, mkCF_row, hcid]
  rw [e (30*86400) (by norm_num), e (60*86400) (by norm_num), e (90*86400) (by norm_num)]
  exact ⟨rfl, rfl, rfl⟩

/-- Witness for C9 at the scenario's day-40 record. -/
theorem window_counts_coincide_witness :
    cfT3 ∈ df_contact_frequency (df_deployments 548 scenarioBatch) ∧
      (cfT3.contacts_last_30d = cfT3.contacts_last_60d ∧
       cfT3.contacts_last_60d = cfT3.contacts_last_90d ∧
       cfT3.contacts_last_30d =
         ((clientPartition (df_deployments 548 scenarioBatch) cfT3.row.CLIENT_ID).countP
           fun x => decide (x.DEPLOYMENT_DATE ≤ cfT3.row.DEPLOYMENT_DATE) : Int) - 1) :=
  ⟨by decide, window_counts_coincide 548 scenarioBatch (by decide) cfT3 (by decide)⟩

/-- C3: `response_to_conversion_rate` of a campaign group is NULL when
`total_responses = 0` and equals `total_conversions / total_responses * 100`
when `total_responses > 0`; the division itself can never fault (Spark
non-ANSI division is total, NULL on zero). -/
theorem response_to_conversion_rate_null_on_zero (today : Int)
    (batch : List DeploymentRecord) (k : String × String × String × String) :
    ((campaignAggOf today batch k).total_responses = 0 →
      (campaignAggOf today batch k).response_to_conversion_rate = none) ∧
    (0 < (campaignAggOf today batch k).total_responses →
      (campaignAggOf today batch k).response_to_conversion_rate =
        some (((campaignAggOf today batch k).total_conversions : ℚ) /
          ((campaignAggOf today batch k).total_responses : ℚ) * 100)) := by
  have hr : (campaignAggOf today batch k).response_to_conversion_rate =
      (divNull
        ((((campaignRows (df_deployments today batch) k).map (·.CONVERSION_FLAG)).sum : Int) : ℚ)
        ((((campaignRows (df_deployments today batch) k).map (·.RESPONSE_FLAG)).sum : Int) : ℚ)).map
        (· * 100) := rfl
  have ht : (campaignAggOf today batch k).total_responses =
      ((campaignRows (df_deployments today batch) k).map (·.RESPONSE_FLAG)).sum := rfl
  constructor
  · intro h0
    rw [ht] at h0
    rw [hr, h0]
    simp [divNull]
  · intro hpos
    rw [ht] at hpos
    rw [hr, divNull, if_neg (by exact_mod_cast hpos.ne'), Option.map_some']
    rfl

/-- Witness for C3 on the scenario batch (1 response, 0 conversions). -/
theorem response_to_conversion_rate_null_on_zero_witness :
    0 < (campaignAggOf 548 scenarioBatch kCAMP).total_responses ∧
    (campaignAggOf 548 scenarioBatch kCAMP).response_to_conversion_rate =
      some (((campaignAggOf 548 scenarioBatch kCAMP).total_conversions : ℚ) /
        ((campaignAggOf 548 scenarioBatch kCAMP).total_responses : ℚ) * 100) :=
  ⟨by decide, (response_to_conversion_rate_null_on_zero 548 scenarioBatch kCAMP).2 (by decide)⟩

/-- Under the invariant "event date present whenever the flag is 1", the
`when(...)`-based NULL-skipping aggregation input equals the spec's
filter-then-map input. -/
theorem filterMap_when_eq (flagF : DeploymentRecord → Int)
    (dateF : DeploymentRecord → Option Int) (g : List DeploymentRecord)
    (h : ∀ r ∈ g, flagF r = 1 → (dateF r).isSome = true) :
    (g.filterMap fun r =>
      if flagF r = 1 then (dateF r).map fun d => ((d - r.DEPLOYMENT_DATE : Int) : ℚ)
      else none)
      = (g.filter fun r => decide (flagF r = 1)).map fun r =>
          (((dateF r).getD 0 - r.DEPLOYMENT_DATE : Int) : ℚ) := by
  induction g with
  | nil => rfl
  | cons a l ih =>
    have ha := h a (List.mem_cons_self a l)
    have hl := fun r hrr => h r (List.mem_cons_of_mem a hrr)
    by_cases hf : flagF a = 1
    · obtain ⟨d, hd⟩ := Option.isSome_iff_exists.1 (ha hf)
      simp only [List.filterMap_cons, List.filter_cons]
      rw [if_pos hf, hd, Option.map_some', if_pos (decide_eq_true hf)]
      simp only [List.map_cons, hd, Option.getD_some]
      exact congrArg _ (ih hl)
    · simp only [List.filterMap_cons, List.filter_cons]
      rw [if_neg hf, if_neg (by simp [hf])]
      exact ih hl

/-- C7: under the data-model invariant (event date present iff flag set,
of which only the "if" direction is needed), each campaign group's
`avg_days_to_response` / `avg_days_to_conversion` equals the spec's
mean over flagged records — NULL included, when no such record exists. -/
theorem timing_averages_match (today : Int) (batch : List DeploymentRecord)
    (k : String × String × String × String)
    (hr : ∀ r ∈ batch, r.RESPONSE_FLAG = 1 → r.RESPONSE_DATE.isSome = true)
    (hc : ∀ r ∈ batch, r.CONVERSION_FLAG = 1 → r.CONVERSION_DATE.isSome = true) :
    (campaignAggOf today batch k).avg_days_to_response =
      avg_days_to_response_spec (campaignRows (df_deployments today batch) k) ∧
    (campaignAggOf today batch k).avg_days_to_conversion =
      avg_days_to_conversion_spec (campaignRows (df_deployments today batch) k) := by
  have hsub : ∀ r ∈ campaignRows (df_deployments today batch) k, r ∈ batch := fun r hrr =>
    (mem_df_deployments.1 (List.mem_of_mem_filter hrr)).1
  constructor
  · have h1 : (campaignAggOf today batch k).avg_days_to_response =
        avgRat ((campaignRows (df_deployments today batch) k).filterMap fun r =>
          if r.RESPONSE_FLAG = 1 then r.RESPONSE_DATE.map fun d =>
            ((d - r.DEPLOYMENT_DATE : Int) : ℚ)
          else none) := rfl
    have h2 := filterMap_when_eq (fun r => r.RESPONSE_FLAG) (fun r => r.RESPONSE_DATE)
      (campaignRows (df_deployments today batch) k) (fun r hrr => hr r (hsub r hrr))
    exact h1.trans (congrArg avgRat h2)
  · have h1 : (campaignAggOf today batch k).avg_days_to_conversion =
        avgRat ((campaignRows (df_deployments today batch) k).filterMap fun r =>
          if r.CONVERSION_FLAG = 1 then r.CONVERSION_DATE.map fun d =>
            ((d - r.DEPLOYMENT_DATE : Int) : ℚ)
          else none) := rfl
    have h2 := filterMap_when_eq (fun r => r.CONVERSION_FLAG) (fun r => r.CONVERSION_DATE)
      (campaignRows (df_deployments today batch) k) (fun r hrr => hc r (hsub r hrr))
    exact h1.trans (congrArg avgRat h2)

/-- Witness for C7 on the scenario batch (response mean defined,
conversion mean NULL since no record converts). -/
theorem timing_averages_match_witness :
    (campaignAggOf 548 scenarioBatch kCAMP).avg_days_to_response =
      avg_days_to_response_spec (campaignRows (df_deployments 548 scenarioBatch) kCAMP) ∧
    (campaignAggOf 548 scenarioBatch kCAMP).avg_days_to_conversion =
      avg_days_to_conversion_spec (campaignRows (df_deployments 548 scenarioBatch) kCAMP) :=
  timing_averages_match 548 scenarioBatch kCAMP (by decide) (by decide)

/-- C8, counterexample: a client group whose only record has a NULL
tactic id gets `total_contacts = count("TACTIC_ID") = 0`, and its rates
evaluate to NULL, not to the claimed guarded 0 — the code contains no
division-by-zero guard. -/
theorem engagement_rate_not_zero_guarded :
    (df_client_engagement 548 [nullTacticRec]).map
      (fun p => (p.CLIENT_ID, p.total_contacts, p.response_rate, p.conversion_rate)) =
      [("C9", 0, none, none)] := by decide

/-- C8, amended: the rates are unguarded divisions that are NULL on a
zero count; whenever the client group contains at least one record with
a non-NULL tactic id, `total_contacts` is positive and both rates are
defined, so no division fault can occur. -/
theorem engagement_rates_defined_on_counted_contact (today : Int)
    (df : List DeploymentRecord) (c : String)
    (h : ∃ r ∈ clientPartition df c, r.TACTIC_ID.isSome = true) :
    0 < (clientAggOf today df c).total_contacts ∧
    (clientAggOf today df c).response_rate =
      some (((clientAggOf today df c).total_responses : ℚ) /
        ((clientAggOf today df c).total_contacts : ℚ)) ∧
    (clientAggOf today df c).conversion_rate =
      some (((clientAggOf today df c).total_conversions : ℚ) /
        ((clientAggOf today df c).total_contacts : ℚ)) := by
  have hcnt : 0 < (clientPartition df c).countP (·.TACTIC_ID.isSome) :=
    List.countP_pos_iff.2 h
  refine ⟨hcnt, ?_, ?_⟩
  · have h1 : (clientAggOf today df c).response_rate =
        divNull ((((clientPartition df c).map (·.RESPONSE_FLAG)).sum : Int) : ℚ)
          (((clientPartition df c).countP (·.TACTIC_ID.isSome) : Nat) : ℚ) := rfl
    rw [h1, divNull, if_neg (by exact_mod_cast hcnt.ne')]
    rfl
  · have h1 : (clientAggOf today df c).conversion_rate =
        divNull ((((clientPartition df c).map (·.CONVERSION_FLAG)).sum : Int) : ℚ)
          (((clientPartition df c).countP (·.TACTIC_ID.isSome) : Nat) : ℚ) := rfl
    rw [h1, divNull, if_neg (by exact_mod_cast hcnt.ne')]
    rfl

/-- Witness for the amended C8 on the scenario batch's client "C1". -/
theorem engagement_rates_defined_on_counted_contact_witness :
    0 < (clientAggOf 548 scenarioBatch "C1").total_contacts ∧
    (clientAggOf 548 scenarioBatch "C1").response_rate =
      some (((clientAggOf 548 scenarioBatch "C1").total_responses : ℚ) /
        ((clientAggOf 548 scenarioBatch "C1").total_contacts : ℚ)) ∧
    (clientAggOf 548 scenarioBatch "C1").conversion_rate =
      some (((clientAggOf 548 scenarioBatch "C1").total_conversions : ℚ) /
        ((clientAggOf 548 scenarioBatch "C1").total_contacts : ℚ)) :=
  engagement_rates_defined_on_counted_contact 548 scenarioBatch "C1" (by decide)

/-- C4: every output row of `df_optimal_frequency` passes the
`sample_size >= 100` filter, and any (channel, frequency) group whose
sample size is below 100 contributes no output row at all — it is
dropped by the filter, which raises nothing. -/
theorem optimal_frequency_significance (df : List DeploymentRecord) :
    (df_optimal_frequency df).countP (fun b => decide (b.sample_size < 100)) = 0 ∧
    ∀ k ∈ ((optJoined df).map optKey).dedup,
      (optAgg k (optGroup (optJoined df) k)).sample_size < 100 →
        (df_optimal_frequency df).countP
          (fun b => decide ((b.CHANNEL, b.contacts_last_30d) = k)) = 0 := by
  constructor
  · rw [List.countP_eq_zero]
    intro b hb
    have hbs := (List.mem_filter.1 hb).2
    simp only [decide_eq_true_eq] at hbs ⊢
    omega
  · intro k hk hlt
    rw [List.countP_eq_zero]
    intro b hb hkey
    obtain ⟨hbm, hbs⟩ := List.mem_filter.1 hb
    obtain ⟨k2, hk2, rfl⟩ := List.mem_map.1 hbm
    simp only [decide_eq_true_eq] at hbs hkey
    have hfields : ((optAgg k2 (optGroup (optJoined df) k2)).CHANNEL,
        (optAgg k2 (optGroup (optJoined df) k2)).contacts_last_30d) = k2 := rfl
    rw [hfields] at hkey
    subst hkey
    omega

/-- Witness for C4: the scenario's ("EMAIL", 0) group has sample size
1 < 100 and no output row. -/
theorem optimal_frequency_significance_witness :
    ("EMAIL", (0 : Int)) ∈ ((optJoined scenarioBatch).map optKey).dedup ∧
    (optAgg ("EMAIL", 0) (optGroup (optJoined scenarioBatch) ("EMAIL", 0))).sample_size
      < 100 ∧
    (df_optimal_frequency scenarioBatch).countP
      (fun b => decide ((b.CHANNEL, b.contacts_last_30d) = ("EMAIL", 0))) = 0 :=
  ⟨by decide, by decide,
    (optimal_frequency_significance scenarioBatch).2 ("EMAIL", 0) (by decide) (by decide)⟩

/-- C5, counterexample: on a batch whose single record has a NULL
tactic id, the window engine emits one record, the inner join matches it
to no source record and silently drops it, and `df_optimal_frequency`
still evaluates (to the empty table) — no IntegrityError mechanism
exists anywhere in the code. -/
theorem join_silently_drops_unmatched :
    (df_contact_frequency [nullTacticRec]).length = 1 ∧
    optJoined [nullTacticRec] = [] ∧
    df_optimal_frequency [nullTacticRec] = [] :=
  ⟨by decide, by decide, by decide⟩

/-- Counting helper: with pairwise-distinct keys, exactly one list
element carries the key of a given member. -/
theorem countP_eq_one_of_nodup_key {α κ : Type} [DecidableEq κ] (f : α → κ)
    (l : List α) (hnd : (l.map f).Nodup) {x : α} (hx : x ∈ l) :
    l.countP (fun y => decide (f y = f x)) = 1 := by
  induction l with
  | nil => cases hx
  | cons a t ih =>
    rw [List.map_cons, List.nodup_cons] at hnd
    rcases List.mem_cons.1 hx with rfl | hx'
    · rw [List.countP_cons]
      have h0 : t.countP (fun y => decide (f y = f x)) = 0 := by
        rw [List.countP_eq_zero]
        intro b hb hfb
        rw [decide_eq_true_eq] at hfb
        exact hnd.1 (hfb ▸ List.mem_map_of_mem f hb)
      rw [h0]
      simp
    · have hne : ¬(f a = f x) := fun hEq => hnd.1 (hEq ▸ List.mem_map_of_mem f hx')
      rw [List.countP_cons, ih hnd.2 hx']
      simp [hne]

/-- C5, amended: the code's join is a plain inner equi-join with no
integrity check; rows with an unmatched (NULL) key are silently dropped.
When every tactic id is present and no two records share one — the
data-model reading of "tactic_id (unique)" — every window record
matches exactly one source record, so the join is 1:1 by construction. -/
theorem join_matches_exactly_one (df : List DeploymentRecord)
    (h1 : ∀ r ∈ df, r.TACTIC_ID.isSome = true)
    (h2 : (df.map (·.TACTIC_ID)).Nodup) :
    ∀ l ∈ df_contact_frequency df,
      ((selectSource df).countP fun r => tacticMatch l.row.TACTIC_ID r.TACTIC_ID) = 1 := by
  intro l hl
  have hrow : l.row ∈ df := row_mem_of_mem_df_contact_frequency hl
  obtain ⟨a, ha⟩ := Option.isSome_iff_exists.1 (h1 l.row hrow)
  rw [selectSource, List.countP_map]
  have e1 : df.countP ((fun r => tacticMatch l.row.TACTIC_ID r.TACTIC_ID) ∘
      (fun r => (⟨r.TACTIC_ID, r.CHANNEL, r.RESPONSE_FLAG, r.CONVERSION_FLAG,
        r.REVENUE⟩ : SourceColumns))) =
      df.countP (fun y => decide (y.TACTIC_ID = l.row.TACTIC_ID)) := by
    refine List.countP_congr fun x _ => ?_
    show tacticMatch l.row.TACTIC_ID x.TACTIC_ID = true ↔
      decide (x.TACTIC_ID = l.row.TACTIC_ID) = true
    rw [ha]
    cases hxt : x.TACTIC_ID with
    | none => simp [tacticMatch]
    | some b =>
      simp only [tacticMatch, beq_iff_eq, decide_eq_true_eq, Option.some.injEq]
      exact eq_comm
  rw [e1]
  exact countP_eq_one_of_nodup_key (fun r => r.TACTIC_ID) df h2 hrow

/-- Witness for the amended C5 at the scenario's day-1 window record. -/
theorem join_matches_exactly_one_witness :
    cfT1 ∈ df_contact_frequency scenarioBatch ∧
    ((selectSource scenarioBatch).countP fun r =>
      tacticMatch cfT1.row.TACTIC_ID r.TACTIC_ID) = 1 :=
  ⟨by decide,
    join_matches_exactly_one scenarioBatch (by decide) (by decide) cfT1 (by decide)⟩

/-- A list of 0/1-bounded integers sums to between 0 and its length. -/
theorem list_int_sum_bounds (xs : List Int) (h : ∀ x ∈ xs, 0 ≤ x ∧ x ≤ 1) :
    0 ≤ xs.sum ∧ xs.sum ≤ (xs.length : Int) := by
  induction xs with
  | nil => simp
  | cons a t ih =>
    have ha := h a (List.mem_cons_self a t)
    have ht := ih fun x hx => h x (List.mem_cons_of_mem a hx)
    simp only [List.sum_cons, List.length_cons]
    push_cast
    omega

/-- The mean of a nonempty list of 0/1-bounded integers is defined and
lies in the unit interval. -/
theorem avgInt_unit_interval (xs : List Int) (h : ∀ x ∈ xs, 0 ≤ x ∧ x ≤ 1)
    (hne : xs ≠ []) : ∃ q : ℚ, avgInt xs = some q ∧ 0 ≤ q ∧ q ≤ 1 := by
  have hlen : xs.length ≠ 0 := fun h0 => hne (List.length_eq_zero.1 h0)
  obtain ⟨hs0, hs1⟩ := list_int_sum_bounds xs h
  have hlpos : (0 : ℚ) < (xs.length : ℚ) := by
    exact_mod_cast Nat.pos_of_ne_zero hlen
  refine ⟨((xs.sum : Int) : ℚ) / ((xs.length : Nat) : ℚ), ?_, ?_, ?_⟩
  · unfold avgInt avgRat
    rw [if_neg (by rw [List.length_map]; exact hlen), List.length_map,
      ← Int.cast_list_sum]
  · exact div_nonneg (by exact_mod_cast hs0) (le_of_lt hlpos)
  · rw [div_le_one hlpos]
    exact_mod_cast hs1

/-- A key drawn from the deduplicated key list has a nonempty group. -/
theorem filter_key_ne_nil {α κ : Type} [DecidableEq κ] (key : α → κ) (rows : List α)
    {k : κ} (hk : k ∈ (rows.map key).dedup) :
    (rows.filter fun r => decide (key r = k)) ≠ [] := by
  rw [List.mem_dedup] at hk
  obtain ⟨r, hr, rfl⟩ := List.mem_map.1 hk
  intro h0
  have hmem : r ∈ rows.filter fun r2 => decide (key r2 = key r) :=
    List.mem_filter.2 ⟨hr, by simp⟩
  rw [h0] at hmem
  cases hmem

/-- C10: with 0/1 flags and tactic ids present, the Monthly Trend and
Frequency Impact rate fields are plain flag means lying in [0, 1]
(a fraction), while the Campaign Aggregator's rate fields are the same
means multiplied by 100, lying in [0, 100] — two different scales. -/
theorem rate_fields_scales (df : List DeploymentRecord)
    (hf : ∀ r ∈ df, (r.RESPONSE_FLAG = 0 ∨ r.RESPONSE_FLAG = 1) ∧
      (r.CONVERSION_FLAG = 0 ∨ r.CONVERSION_FLAG = 1))
    (ht : ∀ r ∈ df, r.TACTIC_ID.isSome = true) :
    (∀ t ∈ df_monthly_trends df, ∃ q1 q2 : ℚ,
      t.response_rate = some q1 ∧ t.conversion_rate = some q2 ∧
      0 ≤ q1 ∧ q1 ≤ 1 ∧ 0 ≤ q2 ∧ q2 ≤ 1) ∧
    (∀ b ∈ df_frequency_impact df, ∃ q1 q2 : ℚ,
      b.avg_response_rate = some q1 ∧ b.avg_conversion_rate = some q2 ∧
      0 ≤ q1 ∧ q1 ≤ 1 ∧ 0 ≤ q2 ∧ q2 ≤ 1) ∧
    (∀ a ∈ df_campaign_performance df, ∃ q1 q2 : ℚ,
      a.response_rate = some (q1 * 100) ∧ a.conversion_rate = some (q2 * 100) ∧
      0 ≤ q1 ∧ q1 ≤ 1 ∧ 0 ≤ q2 ∧ q2 ≤ 1) := by
  refine ⟨?_, ?_, ?_⟩
  · intro t htm
    simp only [df_monthly_trends] at htm
    obtain ⟨k, hk, rfl⟩ := List.mem_map.1 htm
    rw [List.mem_insertionSort] at hk
    have hne := filter_key_ne_nil monthKey df hk
    have hb1 : ∀ x ∈ (df.filter fun r => decide (monthKey r = k)).map (·.RESPONSE_FLAG),
        0 ≤ x ∧ x ≤ 1 := by
      intro x hx
      obtain ⟨r, hr, rfl⟩ := List.mem_map.1 hx
      rcases (hf r (List.mem_of_mem_filter hr)).1 with h0 | h0 <;> omega
    have hb2 : ∀ x ∈ (df.filter fun r => decide (monthKey r = k)).map (·.CONVERSION_FLAG),
        0 ≤ x ∧ x ≤ 1 := by
      intro x hx
      obtain ⟨r, hr, rfl⟩ := List.mem_map.1 hx
      rcases (hf r (List.mem_of_mem_filter hr)).2 with h0 | h0 <;> omega
    obtain ⟨q1, hq1, hq1a, hq1b⟩ :=
      avgInt_unit_interval _ hb1 (by simpa using hne)
    obtain ⟨q2, hq2, hq2a, hq2b⟩ :=
      avgInt_unit_interval _ hb2 (by simpa using hne)
    exact ⟨q1, q2, hq1, hq2, hq1a, hq1b, hq2a, hq2b⟩
  · intro b hbm
    simp only [df_frequency_impact] at hbm
    obtain ⟨k, hk, rfl⟩ := List.mem_map.1 hbm
    rw [List.mem_insertionSort] at hk
    have hne := filter_key_ne_nil (fun cf : ContactFrequencyRecord => cf.contacts_last_30d)
      (df_contact_frequency df) hk
    have hb1 : ∀ x ∈ ((df_contact_frequency df).filter fun cf =>
          decide (cf.contacts_last_30d = k)).map (·.row.RESPONSE_FLAG),
        0 ≤ x ∧ x ≤ 1 := by
      intro x hx
      obtain ⟨cf, hcf, rfl⟩ := List.mem_map.1 hx
      have hrdf := row_mem_of_mem_df_contact_frequency (List.mem_of_mem_filter hcf)
      rcases (hf cf.row hrdf).1 with h0 | h0 <;> omega
    have hb2 : ∀ x ∈ ((df_contact_frequency df).filter fun cf =>
          decide (cf.contacts_last_30d = k)).map (·.row.CONVERSION_FLAG),
        0 ≤ x ∧ x ≤ 1 := by
      intro x hx
      obtain ⟨cf, hcf, rfl⟩ := List.mem_map.1 hx
      have hrdf := row_mem_of_mem_df_contact_frequency (List.mem_of_mem_filter hcf)
      rcases (hf cf.row hrdf).2 with h0 | h0 <;> omega
    obtain ⟨q1, hq1, hq1a, hq1b⟩ :=
      avgInt_unit_interval _ hb1 (by simpa using hne)
    obtain ⟨q2, hq2, hq2a, hq2b⟩ :=
      avgInt_unit_interval _ hb2 (by simpa using hne)
    exact ⟨q1, q2, hq1, hq2, hq1a, hq1b, hq2a, hq2b⟩
  · intro a ham
    simp only [df_campaign_performance] at ham
    obtain ⟨k, hk, rfl⟩ := List.mem_map.1 ham
    have hne : campaignRows df k ≠ [] := filter_key_ne_nil campaignKey df hk
    have hlen : (campaignRows df k).length ≠ 0 := fun h0 => hne (List.length_eq_zero.1 h0)
    have hlpos : (0 : ℚ) < ((campaignRows df k).length : ℚ) := by
      exact_mod_cast Nat.pos_of_ne_zero hlen
    have hcnt : (campaignRows df k).countP (·.TACTIC_ID.isSome) =
        (campaignRows df k).length :=
      List.countP_eq_length.2 fun x hx => ht x (List.mem_of_mem_filter hx)
    have hbr : ∀ x ∈ (campaignRows df k).map (·.RESPONSE_FLAG), 0 ≤ x ∧ x ≤ 1 := by
      intro x hx
      obtain ⟨r, hr, rfl⟩ := List.mem_map.1 hx
      rcases (hf r (List.mem_of_mem_filter hr)).1 with h0 | h0 <;> omega
    have hbc : ∀ x ∈ (campaignRows df k).map (·.CONVERSION_FLAG), 0 ≤ x ∧ x ≤ 1 := by
      intro x hx
      obtain ⟨r, hr, rfl⟩ := List.mem_map.1 hx
      rcases (hf r (List.mem_of_mem_filter hr)).2 with h0 | h0 <;> omega
    obtain ⟨hr0, hr1⟩ := list_int_sum_bounds _ hbr
    obtain ⟨hc0, hc1⟩ := list_int_sum_bounds _ hbc
    rw [List.length_map] at hr1 hc1
    refine ⟨((((campaignRows df k).map (·.RESPONSE_FLAG)).sum : Int) : ℚ) /
        (((campaignRows df k).length : Nat) : ℚ),
      ((((campaignRows df k).map (·.CONVERSION_FLAG)).sum : Int) : ℚ) /
        (((campaignRows df k).length : Nat) : ℚ), ?_, ?_, ?_, ?_, ?_, ?_⟩
    · have e : (campaignAgg k (campaignRows df k)).response_rate =
          (divNull ((((campaignRows df k).map (·.RESPONSE_FLAG)).sum : Int) : ℚ)
            ((((campaignRows df k).countP (·.TACTIC_ID.isSome)) : Nat) : ℚ)).map
            (· * 100) := rfl
      rw [e, hcnt, divNull, if_neg (by exact_mod_cast hlen), Option.map_some']
    · have e : (campaignAgg k (campaignRows df k)).conversion_rate =
          (divNull ((((campaignRows df k).map (·.CONVERSION_FLAG)).sum : Int) : ℚ)
            ((((campaignRows df k).countP (·.TACTIC_ID.isSome)) : Nat) : ℚ)).map
            (· * 100) := rfl
      rw [e, hcnt, divNull, if_neg (by exact_mod_cast hlen), Option.map_some']
    · exact div_nonneg (by exact_mod_cast hr0) (le_of_lt hlpos)
    · rw [div_le_one hlpos]
      exact_mod_cast hr1
    · exact div_nonneg (by exact_mod_cast hc0) (le_of_lt hlpos)
    · rw [div_le_one hlpos]
      exact_mod_cast hc1

set_option maxRecDepth 8000 in
/-- Witness for C10 on the scenario batch: one row of each of the three
output tables, with its rates pinned to the respective scale. -/
theorem rate_fields_scales_witness :
    (wMT ∈ df_monthly_trends scenarioBatch ∧ wFB ∈ df_frequency_impact scenarioBatch ∧
      wCA ∈ df_campaign_performance scenarioBatch) ∧
    (∃ q1 q2 : ℚ, wMT.response_rate = some q1 ∧ wMT.conversion_rate = some q2 ∧
      0 ≤ q1 ∧ q1 ≤ 1 ∧ 0 ≤ q2 ∧ q2 ≤ 1) ∧
    (∃ q1 q2 : ℚ, wFB.avg_response_rate = some q1 ∧ wFB.avg_conversion_rate = some q2 ∧
      0 ≤ q1 ∧ q1 ≤ 1 ∧ 0 ≤ q2 ∧ q2 ≤ 1) ∧
    (∃ q1 q2 : ℚ, wCA.response_rate = some (q1 * 100) ∧
      wCA.conversion_rate = some (q2 * 100) ∧ 0 ≤ q1 ∧ q1 ≤ 1 ∧ 0 ≤ q2 ∧ q2 ≤ 1) := by
  refine ⟨⟨by with_unfolding_all decide, by with_unfolding_all decide,
    by with_unfolding_all decide⟩, ?_, ?_, ?_⟩
  · exact (rate_fields_scales scenarioBatch (by decide) (by decide)).1 wMT
      (by with_unfolding_all decide)
  · exact (rate_fields_scales scenarioBatch (by decide) (by decide)).2.1 wFB
      (by with_unfolding_all decide)
  · exact (rate_fields_scales scenarioBatch (by decide) (by decide)).2.2 wCA
      (by with_unfolding_all decide)

end VVD
